import Mathlib

/-!
Shallow embedding of the TriviaAPI Flask backend
(`src/backend/flaskr/__init__.py`) and proofs about its endpoint contracts.

The relational store is modelled as a pair of lists (questions,
categories); SQLAlchemy queries become explicit list operations.  HTTP
outcomes are `Except Nat α`: `.error c` is an `abort(c)` (or an uncaught
exception reaching the 500 handler) and `.ok` carries the JSON payload of
the successful response.  Handlers that write to the store return the
post-state explicitly, so "table unchanged" facts are statable.

`models.py` is imported by the app but is not part of the repository
sources; the entity shapes, `format`, `insert` and `delete` are modelled
from the specification (Data Model section and glossary) where noted.
-/

namespace Trivia

/-- `Modelled from the spec:` `models.py` is absent from the sources; per the
spec data model a Question row has `id` (integer primary key, generated),
`question` (text), `answer` (text), `category` (integer), `difficulty`
(integer). -/
structure Question where
  id : Int
  question : String
  answer : String
  category : Int
  difficulty : Int
deriving DecidableEq

/-- `Modelled from the spec:` a Category row has `id` (integer primary key)
and `type` (text label). -/
structure Category where
  id : Int
  type : String
deriving DecidableEq

/-- The public JSON serialization of a question (spec glossary: id,
question text, answer, category, difficulty). -/
structure FormattedQuestion where
  id : Int
  question : String
  answer : String
  category : Int
  difficulty : Int
deriving DecidableEq

/-- `Modelled from the spec:` `Question.format` from the missing `models.py`;
the glossary says a formatted question is the entity serialized to
(id, question text, answer, category, difficulty). -/
def Question.format (q : Question) : FormattedQuestion :=
  ⟨q.id, q.question, q.answer, q.category, q.difficulty⟩

/-- The database state: the `questions` and `categories` tables, each a list
of rows in unspecified storage order. -/
structure DB where
  questions : List Question
  categories : List Category
deriving DecidableEq

instance {ε α : Type} [DecidableEq ε] [DecidableEq α] :
    DecidableEq (Except ε α) := fun x y =>
  match x, y with
  | .ok a, .ok b =>
    if h : a = b then .isTrue (by rw [h]) else .isFalse (by simp [h])
  | .error a, .error b =>
    if h : a = b then .isTrue (by rw [h]) else .isFalse (by simp [h])
  | .ok _, .error _ => .isFalse (by simp)
  | .error _, .ok _ => .isFalse (by simp)

/-- Row order produced by `order_by(Question.id)`. -/
def qle (a b : Question) : Prop := a.id ≤ b.id

instance : DecidableRel qle := fun a b => inferInstanceAs (Decidable (a.id ≤ b.id))

instance : IsTotal Question qle := ⟨fun a b => Int.le_total a.id b.id⟩

instance : IsTrans Question qle := ⟨fun _ _ _ h h' => Int.le_trans h h'⟩

/-- Row order produced by `order_by(Category.id)`. -/
def cle (a b : Category) : Prop := a.id ≤ b.id

instance : DecidableRel cle := fun a b => inferInstanceAs (Decidable (a.id ≤ b.id))

instance : IsTotal Category cle := ⟨fun a b => Int.le_total a.id b.id⟩

instance : IsTrans Category cle := ⟨fun _ _ _ h h' => Int.le_trans h h'⟩

/-- `Question.query.order_by(Question.id).all()`. -/
def sortQuestions (l : List Question) : List Question :=
  List.insertionSort qle l

/-- `Category.query.order_by(Category.id).all()`. -/
def sortCategories (l : List Category) : List Category :=
  List.insertionSort cle l

/-- The id-to-type mapping built by the handlers from a category row list:
`( category.id: category.type for category in categories )`. -/
def categoryMapping (l : List Category) : List (Int × String) :=
  l.map (fun c => (c.id, c.type))

/-- The success payload of `GET /questions`. -/
structure QuestionsPage where
  questions : List FormattedQuestion
  total_questions : Nat
  categories : List (Int × String)
  current_category : Option String
deriving DecidableEq

/-- The success payload of `POST /questions/search` and of
`GET /categories/id/questions`. -/
structure SearchResult where
  questions : List FormattedQuestion
  total_questions : Nat
  current_category : Option String
deriving DecidableEq

/-- The JSON envelope produced by the four `errorhandler` functions.  The
handlers only ever abort with 400, 404 or 500 (422 is declared but never
raised); every other code is rendered here as the 500 envelope because an
uncaught exception reaches the InternalServerError handler. -/
structure ErrorEnvelope where
  success : Bool
  error : Nat
  message : String
deriving DecidableEq

def errorResponse (code : Nat) : ErrorEnvelope :=
  if code = 400 then ⟨false, 400, "Bad Request"⟩
  else if code = 404 then ⟨false, 404, "Not Found"⟩
  else if code = 422 then ⟨false, 422, "Unprocessable Entity"⟩
  else ⟨false, 500, "Internal Server Error"⟩

/-- `GET /categories` (`get_categories`): order categories by id, 404 when
none exist, else the id-to-type mapping. -/
def get_categories (db : DB) : Except Nat (List (Int × String)) :=
  let categories := sortCategories db.categories
  if categories.length = 0 then .error 404
  else .ok (categoryMapping categories)

/-- `GET /questions` (`get_questions`).  The two query parameters arrive
through `request.args.get(name, default, type=int)`: an absent or
unparsable value yields the default (10 for `limit`, 1 for `page`), so the
parsed arguments are `Option Int`.  The query is
`order_by(id).limit(limit).offset((page-1)*limit)`; in SQL the offset is
applied before the limit regardless of call order.  The storage engine
rejects a negative LIMIT or OFFSET; this handler catches nothing, so that
error reaches the InternalServerError handler (500). -/
def get_questions (db : DB) (limitArg pageArg : Option Int) :
    Except Nat QuestionsPage :=
  let limit := limitArg.getD 10
  let page := pageArg.getD 1
  let offset := (page - 1) * limit
  if limit < 0 ∨ offset < 0 then .error 500
  else
    let questions := ((sortQuestions db.questions).drop offset.toNat).take limit.toNat
    let current_questions := questions.map Question.format
    let categories := sortCategories db.categories
    if current_questions.length = 0 then .error 404
    else .ok ⟨current_questions, db.questions.length,
              categoryMapping categories, none⟩

/-- Lowercasing a string, character by character (what `ILIKE`
case-insensitivity amounts to), as a character list. -/
def lowerChars (s : String) : List Char :=
  s.data.map Char.toLower

/-- The whitespace characters the storage engine's integer input routine
skips (C isspace): space, tab, newline, vertical tab, form feed, carriage
return. -/
def pgSpaceChar (c : Char) : Bool :=
  c = ' ' || c = '\t' || c = '\n' || c = '\x0B' || c = '\x0C' || c = '\r'

/-- The ASCII whitespace characters CPython's int() strips: the C isspace
set plus the separator control characters 0x1C through 0x1F, all of which
Python treats as whitespace. -/
def pySpaceChar (c : Char) : Bool :=
  c = ' ' || c = '\t' || c = '\n' || c = '\x0B' || c = '\x0C' || c = '\r' ||
  c = '\x1C' || c = '\x1D' || c = '\x1E' || c = '\x1F'

/-- A nonempty all-decimal-digit run, as a number. -/
def decDigits? (cs : List Char) : Option Nat :=
  if cs.isEmpty then none
  else if cs.all Char.isDigit then
    some (cs.foldl (fun a c => a * 10 + (c.toNat - 48)) 0)
  else none

/-- The storage engine's cast of a string to a 32-bit integer column,
applied when a string path value meets an integer column: optional
surrounding whitespace, an optional sign, one or more decimal digits, and
the value must fit a signed 32-bit integer; anything else (including an
out-of-range numeral) raises DataError. -/
def castInt4? (s : String) : Option Int :=
  let cs := ((s.data.dropWhile pgSpaceChar).reverse.dropWhile pgSpaceChar).reverse
  let parsed : Option Int :=
    match cs with
    | '-' :: rest => (decDigits? rest).map (fun n => -(n : Int))
    | '+' :: rest => (decDigits? rest).map (fun n => (n : Int))
    | rest => (decDigits? rest).map (fun n => (n : Int))
  match parsed with
  | some n => if -(2 ^ 31) ≤ n ∧ n < 2 ^ 31 then some n else none
  | none => none

/-- Digits of a CPython base-10 integer literal after the first one:
decimal digits with single underscores allowed between digits. -/
def pyDigitsGo : Nat → List Char → Option Nat
  | acc, [] => some acc
  | acc, '_' :: rest =>
    match rest with
    | d :: rest' =>
      if d.isDigit then pyDigitsGo (acc * 10 + (d.toNat - 48)) rest' else none
    | [] => none
  | acc, d :: rest =>
    if d.isDigit then pyDigitsGo (acc * 10 + (d.toNat - 48)) rest else none

/-- A CPython digit group: at least one decimal digit, single underscores
permitted between digits (never leading, trailing, or doubled). -/
def pyDigits? : List Char → Option Nat
  | [] => none
  | c :: rest => if c.isDigit then pyDigitsGo (c.toNat - 48) rest else none

/-- CPython's int() on an ASCII string: strip whitespace, an optional
sign, then an underscore-grouped decimal digit run; arbitrary precision.
(CPython additionally accepts non-ASCII Unicode decimal digits; the
embedding's JSON strings are ASCII by construction, see AsciiStr, so those
lie outside the model rather than being misclassified.) -/
def pyStrToInt? (s : String) : Option Int :=
  let cs := ((s.data.dropWhile pySpaceChar).reverse.dropWhile pySpaceChar).reverse
  match cs with
  | '-' :: rest => (pyDigits? rest).map (fun n => -(n : Int))
  | '+' :: rest => (pyDigits? rest).map (fun n => (n : Int))
  | rest => (pyDigits? rest).map (fun n => (n : Int))

def asciiOnly (s : String) : Bool :=
  s.data.all (fun c => c.toNat < 128)

/-- An ASCII string.  The embedding covers ASCII request payloads: CPython's
int() also accepts non-ASCII Unicode decimal digits, which no finite table
here could model, so the scope is enforced in the type. -/
def AsciiStr := {s : String // asciiOnly s = true}

/-- A JSON value, as far as the request bodies need: scalars, arrays and
objects; strings are ASCII per the embedding scope. -/
inductive Json where
  | null : Json
  | bool : Bool → Json
  | num : Int → Json
  | str : AsciiStr → Json
  | arr : List Json → Json
  | obj : List (String × Json) → Json

/-- Shorthand for an ASCII JSON string with its scope proof. -/
def jstr (s : String) (h : asciiOnly s = true) : Json :=
  .str ⟨s, h⟩

/-- The Python exception classes the modelled expressions can raise. -/
inductive PyErr where
  | typeError : PyErr
  | valueError : PyErr
  | attributeError : PyErr
deriving DecidableEq

/-- Python `int(x)` on a JSON value: `None`, lists and dicts raise
`TypeError`; booleans and numbers coerce; a string is parsed with
CPython's base-10 literal grammar and raises `ValueError` when rejected. -/
def pyInt : Json → Except PyErr Int
  | .null => .error .typeError
  | .bool b => .ok (if b then 1 else 0)
  | .num n => .ok n
  | .str s =>
    match pyStrToInt? s.val with
    | some n => .ok n
    | none => .error .valueError
  | .arr _ => .error .typeError
  | .obj _ => .error .typeError

/-- Python's `d.get(key)` as the handler applies it to `quiz_category`: on
a dict, the value at the key, or `None` when the key is absent; on any
other value the attribute lookup raises `AttributeError`. -/
def dictGet : Json → String → Except PyErr Json
  | .obj fields, k => .ok ((fields.lookup k).getD .null)
  | _, _ => .error .attributeError

/-- `DELETE /questions/question_id` (`delete_question`).  The path value is
a string; `Question.query.get` coerces it for the integer primary key and
a value the engine cannot cast to its 32-bit integer type (non-numeric or
out of range) raises `DataError`, caught as 400.  When no row has the id,
`get` returns `None` and `None.delete()` raises `AttributeError`, caught
as 404.  Otherwise the fetched row is deleted and the response echoes the
literal path string.  Deleting the fetched row is `List.eraseP` (it
removes exactly the one row the primary-key lookup found). -/
def delete_question (db : DB) (question_id : String) :
    DB × Except Nat String :=
  match castInt4? question_id with
  | none => (db, .error 400)
  | some qid =>
    if db.questions.any (fun q => q.id = qid) then
      ({ db with questions := db.questions.eraseP (fun q => q.id = qid) },
       .ok question_id)
    else
      (db, .error 404)

/-- The JSON body of `POST /questions`, after `request.get_json()`: each
required field is `none` when the key is absent (its subscript raises
`KeyError`, caught as 400) and otherwise carries the raw JSON value.  A
body that is not a JSON object at all is modelled as the outer `none`
(subscripting it raises `TypeError`, caught as 400).  No shape check
happens before the insert. -/
structure CreateBody where
  question : Option Json
  answer : Option Json
  difficulty : Option Json
  category : Option Json

/-- `Modelled from the spec:` `Question.insert` lives in the missing
`models.py`; the spec says creation returns the row's generated integer
primary key, modelled as one more than the largest id in the table. -/
def nextId (db : DB) : Int :=
  ((db.questions.map Question.id).foldr max 0) + 1

/-- `Modelled from the spec:` the column types of the missing `models.py`
(question and answer text, difficulty and category integer).  A value is
insertable into a text column exactly when it is a string; any other
value makes the insert fail with an engine error (datatype mismatch or
adaptation failure) that the handler's except clauses do not catch. -/
def textInsert? : Json → Option String
  | .str s => some s.val
  | _ => none

/-- `Modelled from the spec:` insertability into a 32-bit integer column:
an in-range integer, or a string the engine casts (castInt4?).  Booleans,
null, arrays, objects, and out-of-range numbers make the insert fail with
an engine error the handler does not catch. -/
def intInsert? : Json → Option Int
  | .num n => if -(2 ^ 31) ≤ n ∧ n < 2 ^ 31 then some n else none
  | .str s => castInt4? s.val
  | _ => none

/-- `POST /questions` (`create_question`): a missing field (`KeyError`) or
a non-object body (`TypeError`) aborts with 400 before any insert; with
all four fields present the row is inserted — when some field's value does
not fit its column the engine raises at `insert()`, an error neither
`except KeyError` nor `except TypeError` catches, so the endpoint answers
500 with the table unchanged; otherwise the generated id is returned. -/
def create_question (db : DB) (body : Option CreateBody) :
    DB × Except Nat Int :=
  match body with
  | none => (db, .error 400)
  | some b =>
    match b.question, b.answer, b.difficulty, b.category with
    | some qv, some av, some dv, some cv =>
      match textInsert? qv, textInsert? av, intInsert? dv, intInsert? cv with
      | some q, some a, some d, some c =>
        let qid := nextId db
        ({ db with questions := db.questions ++ [⟨qid, q, a, c, d⟩] },
         .ok qid)
      | _, _, _, _ => (db, .error 500)
    | _, _, _, _ => (db, .error 400)

/-- A character with no special meaning in a SQL LIKE pattern. -/
def plainChar (c : Char) : Bool :=
  c ≠ '%' && c ≠ '_' && c ≠ '\\'

/-- One element of a parsed SQL LIKE pattern: the any-sequence wildcard
`%`, the any-one-character wildcard `_`, an escaped character, or a
literal character. -/
inductive LikeTok where
  | pct : LikeTok
  | uscore : LikeTok
  | esc : Char → LikeTok
  | lit : Char → LikeTok
deriving DecidableEq

/-- Reading a SQL LIKE pattern: `%` and `_` are wildcards, a backslash
escapes the next pattern character, everything else is literal.  (A
pattern ending in a lone backslash is rejected by the storage engine; it
is read here as a literal backslash, an edge no theorem depends on.) -/
def likeToks : List Char → List LikeTok
  | [] => []
  | c :: ps =>
    if c = '%' then .pct :: likeToks ps
    else if c = '_' then .uscore :: likeToks ps
    else if c = '\\' then
      match ps with
      | [] => [.lit '\\']
      | d :: ps' => .esc d :: likeToks ps'
    else .lit c :: likeToks ps

/-- SQL LIKE pattern matching, as the storage engine evaluates
`question ILIKE pattern` (both sides already lowercased): `%` matches any
sequence, `_` matches any single character, an escaped or literal
character matches exactly itself. -/
def likeMatch : List LikeTok → List Char → Bool
  | [], s => s.isEmpty
  | .pct :: ps, s => s.tails.any (fun t => likeMatch ps t)
  | .uscore :: ps, s =>
    match s with
    | [] => false
    | _ :: s' => likeMatch ps s'
  | .esc d :: ps, s =>
    match s with
    | [] => false
    | e :: s' => d == e && likeMatch ps s'
  | .lit c :: ps, s =>
    match s with
    | [] => false
    | e :: s' => c == e && likeMatch ps s'

/-- `Question.question.ilike` applied to the interpolated f-string pattern
percent-query-percent: a literal percent, the query text, a literal
percent; ILIKE compares as if both sides were lowercased. -/
def ilikeContains (query text : String) : Bool :=
  likeMatch (likeToks ('%' :: (lowerChars query ++ ['%']))) (lowerChars text)

/-- `POST /questions/search` (`search_question`).  The body is
`request.get_json()` subscripted at `query`: outer `none` models a
non-object body (`TypeError`, 400), inner `none` a missing `query` key
(`KeyError`, 400). -/
def search_question (db : DB) (body : Option (Option String)) :
    Except Nat SearchResult :=
  match body with
  | none => .error 400
  | some none => .error 400
  | some (some query) =>
    let questions := db.questions.filter (fun q => ilikeContains query q.question)
    .ok ⟨questions.map Question.format, questions.length, none⟩

/-- `GET /categories/category_id/questions`
(`get_questions_by_category`).  The path value is a string compared
against the integer `category` column; the engine casts it to its 32-bit
integer type, and a string it cannot cast (non-numeric or out of range)
raises `DataError`, caught as 400.  On success the
response echoes the literal path value as `current_category`. -/
def get_questions_by_category (db : DB) (category_id : String) :
    Except Nat SearchResult :=
  match castInt4? category_id with
  | none => .error 400
  | some cid =>
    let questions := db.questions.filter (fun q => q.category = cid)
    .ok ⟨questions.map Question.format, questions.length, some category_id⟩

/-- The JSON body of `POST /quizzes`: `previous_questions` is a list of
ids (`none` when the key is absent: `KeyError`, 400); `quiz_category`
carries the raw JSON value of the field (`none` when the key is absent:
`KeyError`, 400). -/
structure QuizBody where
  previous_questions : Option (List Int)
  quiz_category : Option Json

/-- `POST /quizzes` (`play_quiz`).  `category_id = int(quiz_category.get(
id))`: when `quiz_category` is not a dict, `.get` raises `AttributeError`,
which is not caught, so the 500 handler answers; a `TypeError` from the
int coercion is caught (400) but a `ValueError` (a string id that int()
rejects) is not, reaching the 500 handler.  The candidate set keeps
questions whose id is not in `previous_questions`, additionally filtered
by category when `category_id` is truthy (nonzero).
`random.randrange(0, len(questions))` is modelled by the oracle `r`: the
draw is `r % len` (for the uniform `r < len` this is `r` itself), and on
an empty candidate list `randrange` raises an uncaught `ValueError`,
reaching the 500 handler.  The handler never writes, so the store is
returned unchanged. -/
def play_quiz (db : DB) (body : Option QuizBody) (r : Nat) :
    DB × Except Nat FormattedQuestion :=
  match body with
  | none => (db, .error 400)
  | some b =>
    match b.previous_questions with
    | none => (db, .error 400)
    | some prev =>
      match b.quiz_category with
      | none => (db, .error 400)
      | some qc =>
        match dictGet qc "id" with
        | .error _ => (db, .error 500)
        | .ok idVal =>
          match pyInt idVal with
          | .error .typeError => (db, .error 400)
          | .error _ => (db, .error 500)
          | .ok category_id =>
            let questions :=
              if category_id ≠ 0 then
                db.questions.filter
                  (fun q => !prev.contains q.id && q.category = category_id)
              else
                db.questions.filter (fun q => !prev.contains q.id)
            match h : questions.length with
            | 0 => (db, .error 500)
            | Nat.succ n =>
              (db, .ok (questions.get ⟨r % (n + 1), by
                rw [h]; exact Nat.mod_lt r (Nat.succ_pos n)⟩).format)

/-- The candidate set `play_quiz` draws from, for a parsed category id. -/
def quizCandidates (db : DB) (prev : List Int) (category_id : Int) :
    List Question :=
  if category_id ≠ 0 then
    db.questions.filter (fun q => !prev.contains q.id && q.category = category_id)
  else
    db.questions.filter (fun q => !prev.contains q.id)

/-! Concrete rows and states used to instantiate the theorems. -/

def qScience : Question := ⟨1, "What is the boiling point of water", "100", 1, 2⟩

def qArt : Question := ⟨2, "Who painted the Mona Lisa", "Da Vinci", 2, 1⟩

def qTitle : Question := ⟨3, "What was the original title of the novel", "unknown", 2, 3⟩

def qXay : Question := ⟨4, "xay", "wild", 1, 1⟩

def catScience : Category := ⟨1, "Science"⟩

def catArt : Category := ⟨2, "Art"⟩

def exDB : DB := ⟨[qTitle, qScience, qArt], [catArt, catScience]⟩

def exDBNoCats : DB := ⟨[qScience, qArt], []⟩

def wildDB : DB := ⟨[qXay], [catScience]⟩

def emptyDB : DB := ⟨[], []⟩

/-! The search semantics the spec describes, for comparison with the
ILIKE-based implementation. -/

/-- The spec's words for `POST /questions/search`: the questions whose text
contains the query as a case-insensitive substring. -/
def substringSearch (db : DB) (query : String) : List Question :=
  db.questions.filter (fun q => decide (lowerChars query <:+: lowerChars q.question))

/-! LIKE-pattern lemmas: a pattern consisting of a percent, a run of plain
characters, and a percent matches exactly the strings with that run as a
contiguous substring. -/

theorem likeToks_nil : likeToks [] = [] := by
  conv_lhs => unfold likeToks

theorem likeToks_pct (ps : List Char) :
    likeToks ('%' :: ps) = .pct :: likeToks ps := by
  conv_lhs => unfold likeToks
  simp

theorem likeToks_plain (c : Char) (ps : List Char) (h1 : ¬(c = '%'))
    (h2 : ¬(c = '_')) (h3 : ¬(c = '\\')) :
    likeToks (c :: ps) = .lit c :: likeToks ps := by
  conv_lhs => unfold likeToks
  simp [h1, h2, h3]

theorem likeMatch_nil (s : List Char) : likeMatch [] s = s.isEmpty := rfl

theorem likeMatch_pct (ps : List LikeTok) (s : List Char) :
    likeMatch (.pct :: ps) s = s.tails.any (fun t => likeMatch ps t) := rfl

theorem likeMatch_lit_nil (c : Char) (ps : List LikeTok) :
    likeMatch (.lit c :: ps) [] = false := rfl

theorem likeMatch_lit_cons (c e : Char) (ps : List LikeTok) (s : List Char) :
    likeMatch (.lit c :: ps) (e :: s) = (c == e && likeMatch ps s) := rfl

theorem likeMatch_pct_one (s : List Char) : likeMatch [.pct] s = true := by
  rw [likeMatch_pct, List.any_eq_true]
  exact ⟨[], (List.mem_tails _ _).2 List.nil_suffix, by simp [likeMatch_nil]⟩

theorem likeMatch_pct_cons (ps : List LikeTok) (s : List Char) :
    likeMatch (.pct :: ps) s = true ↔ ∃ t, t <:+ s ∧ likeMatch ps t = true := by
  rw [likeMatch_pct]
  simp only [List.any_eq_true, List.mem_tails]

theorem likeMatch_lits (p : List Char) (rest : List LikeTok) (s : List Char) :
    likeMatch (p.map LikeTok.lit ++ rest) s = true ↔
      ∃ s', s = p ++ s' ∧ likeMatch rest s' = true := by
  induction p generalizing s with
  | nil => simp
  | cons c p ih =>
    cases s with
    | nil =>
      rw [List.map_cons, List.cons_append, likeMatch_lit_nil]
      simp
    | cons e s' =>
      rw [List.map_cons, List.cons_append, likeMatch_lit_cons,
        Bool.and_eq_true, beq_iff_eq]
      constructor
      · rintro ⟨rfl, hm⟩
        obtain ⟨t, ht, hmt⟩ := (ih s').1 hm
        exact ⟨t, by rw [List.cons_append, ht], hmt⟩
      · rintro ⟨t, ht, hm⟩
        rw [List.cons_append] at ht
        injection ht with h1 h2
        exact ⟨h1.symm, (ih s').2 ⟨t, h2, hm⟩⟩

theorem likeToks_append_plain (p : List Char) (hp : p.all plainChar = true)
    (rest : List Char) :
    likeToks (p ++ rest) = p.map LikeTok.lit ++ likeToks rest := by
  induction p with
  | nil => simp
  | cons c p ih =>
    rw [List.all_cons, Bool.and_eq_true] at hp
    obtain ⟨hc, hp⟩ := hp
    have hc1 : ¬(c = '%') := by
      intro h; rw [h] at hc; exact absurd hc (by decide)
    have hc2 : ¬(c = '_') := by
      intro h; rw [h] at hc; exact absurd hc (by decide)
    have hc3 : ¬(c = '\\') := by
      intro h; rw [h] at hc; exact absurd hc (by decide)
    rw [List.cons_append, likeToks_plain c _ hc1 hc2 hc3, ih hp,
      List.map_cons, List.cons_append]

theorem ilikeContains_iff_substring (query text : String)
    (hq : (lowerChars query).all plainChar = true) :
    ilikeContains query text = true ↔
      lowerChars query <:+: lowerChars text := by
  unfold ilikeContains
  have hpat : likeToks ('%' :: (lowerChars query ++ ['%'])) =
      .pct :: ((lowerChars query).map LikeTok.lit ++ [.pct]) := by
    rw [likeToks_pct, likeToks_append_plain _ hq, likeToks_pct, likeToks_nil]
  rw [hpat, likeMatch_pct_cons]
  constructor
  · rintro ⟨t, hts, hm⟩
    rw [likeMatch_lits] at hm
    obtain ⟨s', rfl, _⟩ := hm
    obtain ⟨u, hu⟩ := hts
    exact ⟨u, s', by rw [← hu]; simp⟩
  · rintro ⟨u, v, huv⟩
    refine ⟨lowerChars query ++ v, ⟨u, by rw [← huv]; simp⟩, ?_⟩
    rw [likeMatch_lits]
    exact ⟨v, rfl, likeMatch_pct_one v⟩

/-! Claim C2: the search endpoint versus the substring specification. -/

/-- C2, counterexample: the claim says that for every string query the
search returns exactly the case-insensitive substring matches.  With the
query "x%y" the endpoint returns the question whose text is "xay" — the
percent sign is interpolated into the ILIKE pattern and acts as a
wildcard — although "x%y" is not a substring of "xay", so the substring
specification returns nothing. -/
theorem C2_search_wildcard_counterexample :
    search_question wildDB (some (some "x%y")) =
      Except.ok ⟨[qXay.format], 1, none⟩ ∧
    substringSearch wildDB "x%y" = [] ∧
    ¬ lowerChars "x%y" <:+: lowerChars qXay.question :=
  ⟨by decide, by decide, by decide⟩

/-- C2, amended: for every string value of the required body field `query`
that contains no LIKE wildcard or escape character (no percent sign,
underscore, or backslash), POST /questions/search returns exactly those
questions whose question text contains `query` as a case-insensitive
substring, with total_questions equal to the number of returned questions
and a null current_category. -/
theorem C2_search_substring_amended (db : DB) (query : String)
    (hq : (lowerChars query).all plainChar = true) :
    search_question db (some (some query)) =
      Except.ok ⟨(substringSearch db query).map Question.format,
                 (substringSearch db query).length, none⟩ := by
  have hf : db.questions.filter (fun q => ilikeContains query q.question) =
      db.questions.filter
        (fun q => decide (lowerChars query <:+: lowerChars q.question)) := by
    apply List.filter_congr
    intro q _
    apply Bool.eq_iff_iff.mpr
    rw [decide_eq_true_eq]
    exact ilikeContains_iff_substring query q.question hq
  simp only [search_question, substringSearch, hf]

/-- C2, witness: the amended theorem applied to a concrete store and the
query "title". -/
theorem C2_search_substring_witness :
    (lowerChars "title").all plainChar = true ∧
    search_question exDB (some (some "title")) =
      Except.ok ⟨(substringSearch exDB "title").map Question.format,
                 (substringSearch exDB "title").length, none⟩ :=
  ⟨by decide, C2_search_substring_amended exDB "title" (by decide)⟩

/-! Claims C1 and C10: the paginated question listing. -/

/-- The slice of the id-ordered question list that the limit/page
parameters of `GET /questions` select, once the engine has accepted the
computed LIMIT and OFFSET. -/
def questionPage (db : DB) (limitArg pageArg : Option Int) : List Question :=
  ((sortQuestions db.questions).drop
    (((pageArg.getD 1 - 1) * limitArg.getD 10).toNat)).take (limitArg.getD 10).toNat

theorem get_questions_eq (db : DB) (limitArg pageArg : Option Int)
    (hl : 0 ≤ limitArg.getD 10) (hp : 1 ≤ pageArg.getD 1) :
    get_questions db limitArg pageArg =
      if questionPage db limitArg pageArg = [] then .error 404
      else
        .ok ⟨(questionPage db limitArg pageArg).map Question.format,
             db.questions.length,
             categoryMapping (sortCategories db.categories), none⟩ := by
  have hneg : ¬(limitArg.getD 10 < 0 ∨
      (pageArg.getD 1 - 1) * limitArg.getD 10 < 0) := by
    push_neg
    exact ⟨hl, Int.mul_nonneg (by omega) hl⟩
  simp only [get_questions, questionPage, List.length_map]
  rw [if_neg hneg]
  exact if_congr List.length_eq_zero rfl rfl

theorem get_questions_neg_offset (db : DB) (limitArg pageArg : Option Int)
    (h : limitArg.getD 10 < 0 ∨ (pageArg.getD 1 - 1) * limitArg.getD 10 < 0) :
    get_questions db limitArg pageArg = .error 500 := by
  simp only [get_questions]
  rw [if_pos h]

theorem sorted_id_questionPage (db : DB) (limitArg pageArg : Option Int) :
    ((questionPage db limitArg pageArg).map Question.id).Sorted (· ≤ ·) := by
  apply List.pairwise_map.2
  apply List.Pairwise.sublist
    ((List.take_sublist _ _).trans (List.drop_sublist _ _))
  exact List.sorted_insertionSort qle db.questions

/-- C8: GET /categories fails with NotFound exactly when the category
table holds zero rows; otherwise it returns the id-to-type mapping over
all the categories (a permutation of the table), ordered by id. -/
theorem C8_get_categories_spec (db : DB) :
    (get_categories db = .error 404 ↔ db.categories = []) ∧
    (db.categories ≠ [] →
      get_categories db =
        .ok (categoryMapping (sortCategories db.categories)) ∧
      (sortCategories db.categories).Perm db.categories ∧
      ((sortCategories db.categories).map Category.id).Sorted (· ≤ ·)) := by
  have hlen : (sortCategories db.categories).length = db.categories.length :=
    (List.perm_insertionSort cle db.categories).length_eq
  constructor
  · simp only [get_categories]
    rw [hlen]
    by_cases h : db.categories = []
    · simp [h]
    · rw [if_neg (fun h0 => h (List.length_eq_zero.1 h0))]
      simp [h]
  · intro h
    refine ⟨?_, List.perm_insertionSort cle db.categories, ?_⟩
    · simp only [get_categories]
      rw [hlen, if_neg (fun h0 => h (List.length_eq_zero.1 h0))]
    · exact List.pairwise_map.2 (List.sorted_insertionSort cle db.categories)

/-- C8, witness: the theorem applied to the concrete store. -/
theorem C8_get_categories_witness :
    exDB.categories ≠ [] ∧
    get_categories exDB = .ok (categoryMapping (sortCategories exDB.categories)) :=
  ⟨by decide, ((C8_get_categories_spec exDB).2 (by decide)).1⟩

/-! Claim C7: the by-category question listing. -/

/-- C7: when the category path value casts to the engine's 32-bit integer
comparison type, the endpoint
returns exactly the questions of that category (membership
characterization included), their count, and echoes the literal path value
as current_category; when it does not coerce, the endpoint fails with
BadRequest (400). -/
theorem C7_get_questions_by_category_spec (db : DB) (category_id : String) :
    (castInt4? category_id = none →
      get_questions_by_category db category_id = .error 400) ∧
    (∀ cid, castInt4? category_id = some cid →
      get_questions_by_category db category_id =
        .ok ⟨(db.questions.filter (fun q => q.category = cid)).map Question.format,
             (db.questions.filter (fun q => q.category = cid)).length,
             some category_id⟩ ∧
      ∀ q, q ∈ db.questions.filter (fun q => q.category = cid) ↔
        q ∈ db.questions ∧ q.category = cid) := by
  constructor
  · intro h
    simp only [get_questions_by_category, h]
  · intro cid h
    refine ⟨by simp only [get_questions_by_category, h], ?_⟩
    intro q
    simp [List.mem_filter]

/-- C7, witness: the theorem applied to the concrete store and the path
value "2"; the "Art" questions come back with the echoed id. -/
theorem C7_get_questions_by_category_witness :
    castInt4? "2" = some 2 ∧
    get_questions_by_category exDB "2" =
      .ok ⟨(exDB.questions.filter (fun q => q.category = 2)).map Question.format,
           (exDB.questions.filter (fun q => q.category = 2)).length,
           some "2"⟩ :=
  ⟨by decide,
    ((C7_get_questions_by_category_spec exDB "2").2 2 (by decide)).1⟩

/-! Claim C5: question deletion. -/

/-- C5: a path value that is not a well-formed integer for the storage
engine (non-numeric, or outside its 32-bit range) gives BadRequest (400); a well-formed id with no matching row gives NotFound (404), so in
particular a second delete of a just-deleted id gives 404; a matching row
is removed (the count decreases by exactly one) and the response's
deleted field is the literal path value.  The second-delete clause assumes
the primary-key invariant (no duplicate ids). -/
theorem C5_delete_question_spec (db : DB) (question_id : String) :
    (castInt4? question_id = none →
      delete_question db question_id = (db, .error 400)) ∧
    (∀ qid, castInt4? question_id = some qid →
      (∀ q ∈ db.questions, q.id ≠ qid) →
      delete_question db question_id = (db, .error 404)) ∧
    (∀ qid, castInt4? question_id = some qid →
      (db.questions.map Question.id).Nodup →
      (∃ q ∈ db.questions, q.id = qid) →
      (delete_question db question_id).2 = .ok question_id ∧
      (delete_question db question_id).1.questions.length + 1 =
        db.questions.length ∧
      delete_question (delete_question db question_id).1 question_id =
        ((delete_question db question_id).1, .error 404)) := by
  refine ⟨?_, ?_, ?_⟩
  · intro h
    simp only [delete_question, h]
  · intro qid h hq
    have hany : db.questions.any (fun q => q.id = qid) = false := by
      rw [Bool.eq_false_iff]
      intro hc
      obtain ⟨q, hqm, hqe⟩ := List.any_eq_true.1 hc
      exact hq q hqm (of_decide_eq_true hqe)
    simp only [delete_question, h, hany]
    rfl
  · intro qid h hnd ⟨a, ham, hai⟩
    have hany : db.questions.any (fun q => q.id = qid) = true :=
      List.any_eq_true.2 ⟨a, ham, decide_eq_true hai⟩
    have hstep : delete_question db question_id =
        ({ db with questions := db.questions.eraseP (fun q => q.id = qid) },
         .ok question_id) := by
      simp only [delete_question, h, hany]
      rfl
    obtain ⟨b, l₁, l₂, hl₁, hpb, hsplit, herase⟩ :=
      List.exists_of_eraseP (p := fun q => decide (q.id = qid)) ham
        (decide_eq_true hai)
    have hnone : ∀ q ∈ db.questions.eraseP (fun q => q.id = qid),
        ¬(q.id = qid) := by
      intro q hqm
      rw [herase, List.mem_append] at hqm
      rcases hqm with hqm | hqm
      · exact fun hc => hl₁ q hqm (decide_eq_true hc)
      · intro hc
        have hbid : b.id = qid := of_decide_eq_true hpb
        have hnd2 := hnd
        rw [hsplit, List.map_append, List.map_cons] at hnd2
        have hnotin : b.id ∉ l₂.map Question.id :=
          (List.nodup_cons.1 (List.nodup_append.1 hnd2).2.1).1
        have hqmem : q.id ∈ l₂.map Question.id :=
          List.mem_map_of_mem Question.id hqm
        rw [hc, ← hbid] at hqmem
        exact hnotin hqmem
    refine ⟨by rw [hstep], ?_, ?_⟩
    · rw [hstep]
      exact List.length_eraseP_add_one ham (decide_eq_true hai)
    · rw [hstep]
      have hany2 : (db.questions.eraseP (fun q => q.id = qid)).any
          (fun q => q.id = qid) = false := by
        rw [Bool.eq_false_iff]
        intro hc
        obtain ⟨q, hqm, hqe⟩ := List.any_eq_true.1 hc
        exact hnone q hqm (of_decide_eq_true hqe)
      simp only [delete_question, h, hany2]
      rfl

/-- C5, witness: deleting the concrete question with id 1 succeeds, echoes
the literal path value, drops the count by one, and deleting it again
gives 404. -/
theorem C5_delete_question_witness :
    castInt4? "1" = some 1 ∧
    (delete_question exDB "1").2 = .ok "1" ∧
    (delete_question exDB "1").1.questions.length + 1 =
      exDB.questions.length ∧
    delete_question (delete_question exDB "1").1 "1" =
      ((delete_question exDB "1").1, .error 404) :=
  ⟨by decide,
    (C5_delete_question_spec exDB "1").2.2 1 (by decide) (by decide)
      ⟨qScience, by decide, by decide⟩⟩

/-! Claim C6: question creation. -/

/-- C6, counterexample: with all four fields present but a difficulty of
"xyz", the subscripts succeed, the insert reaches the engine, and its
rejection of "xyz" for an integer column is caught by neither except
clause: the endpoint answers 500, not the 400 the claim requires. -/
theorem C6_create_wrong_shape_counterexample :
    create_question exDB
        (some ⟨some (jstr "ok question" (by decide)),
               some (jstr "ok answer" (by decide)),
               some (jstr "xyz" (by decide)), some (Json.num 1)⟩) =
      (exDB, .error 500) ∧
    (500 : Nat) ≠ 400 :=
  ⟨by decide, by decide⟩

/-- C6, amended: a body holding all four required fields with values of
insertable shape (strings for question and answer; for difficulty and
category an in-range integer or a string the engine casts) causes exactly
one new row to be inserted — the count grows by one — carrying the
generated id, which is returned; a body that is not an object or misses
any field gives BadRequest (400) with the question table untouched; a body
whose four fields are present but where some value does not fit its column
fails at insert with an engine error caught by neither except clause,
answering 500 with the question table untouched. -/
theorem C6_create_question_spec (db : DB) (body : Option CreateBody) :
    (∀ qv av dv cv q a d c,
      body = some ⟨some qv, some av, some dv, some cv⟩ →
      textInsert? qv = some q → textInsert? av = some a →
      intInsert? dv = some d → intInsert? cv = some c →
      create_question db body =
        ({ db with questions := db.questions ++ [⟨nextId db, q, a, c, d⟩] },
         .ok (nextId db)) ∧
      (create_question db body).1.questions.length =
        db.questions.length + 1) ∧
    ((body = none ∨ ∃ b, body = some b ∧
        (b.question = none ∨ b.answer = none ∨ b.difficulty = none ∨
         b.category = none)) →
      create_question db body = (db, .error 400)) ∧
    (∀ qv av dv cv, body = some ⟨some qv, some av, some dv, some cv⟩ →
      (textInsert? qv = none ∨ textInsert? av = none ∨
       intInsert? dv = none ∨ intInsert? cv = none) →
      create_question db body = (db, .error 500)) := by
  refine ⟨?_, ?_, ?_⟩
  · rintro qv av dv cv q a d c rfl hq ha hd hc
    refine ⟨?_, ?_⟩
    · simp only [create_question, hq, ha, hd, hc]
    · simp only [create_question, hq, ha, hd, hc]
      rw [List.length_append]
      rfl
  · rintro (rfl | ⟨⟨oq, oa, od, oc⟩, rfl, hmiss⟩)
    · rfl
    · cases oq <;> cases oa <;> cases od <;> cases oc <;>
        first
          | rfl
          | simp at hmiss
  · rintro qv av dv cv rfl hbad
    rcases hbad with hb | hb | hb | hb <;>
      cases hq : textInsert? qv <;> cases ha : textInsert? av <;>
      cases hd : intInsert? dv <;> cases hc : intInsert? cv <;>
      simp only [create_question, hq, ha, hd, hc] <;>
      simp_all

/-- C6, witness: creating a question with four insertable fields on the
concrete store appends one row with the generated id; a body missing its
difficulty is refused with 400; a wrong-shaped difficulty answers 500; in
both failure cases the store is unchanged. -/
theorem C6_create_question_witness :
    create_question exDB
        (some ⟨some (jstr "new q" (by decide)), some (jstr "new a" (by decide)),
               some (Json.num 1), some (Json.num 2)⟩) =
      ({ exDB with
          questions := exDB.questions ++ [⟨nextId exDB, "new q", "new a", 2, 1⟩] },
       .ok (nextId exDB)) ∧
    create_question exDB
        (some ⟨some (jstr "new q" (by decide)), some (jstr "new a" (by decide)),
               none, some (Json.num 2)⟩) =
      (exDB, .error 400) ∧
    create_question exDB
        (some ⟨some (jstr "new q" (by decide)), some (jstr "new a" (by decide)),
               some Json.null, some (Json.num 2)⟩) =
      (exDB, .error 500) :=
  ⟨((C6_create_question_spec exDB _).1 (jstr "new q" (by decide))
      (jstr "new a" (by decide)) (Json.num 1) (Json.num 2) "new q" "new a" 1 2
      rfl (by decide) (by decide) (by decide) (by decide)).1,
    (C6_create_question_spec exDB _).2.1
      (Or.inr ⟨_, rfl, Or.inr (Or.inr (Or.inl rfl))⟩),
    (C6_create_question_spec exDB _).2.2 _ _ _ _ rfl
      (Or.inr (Or.inr (Or.inl rfl)))⟩

/-! Claims C3, C4, C9: the quiz endpoint. -/

theorem dictGet_single (k : String) (v : Json) :
    dictGet (.obj [(k, v)]) k = .ok v := by
  simp [dictGet, List.lookup]

theorem play_quiz_ok (db : DB) (prev : List Int) (idVal : Json) (cid : Int)
    (hid : pyInt idVal = .ok cid) (n : Nat)
    (hn : (quizCandidates db prev cid).length = n + 1) (r : Nat) :
    play_quiz db (some ⟨some prev, some (.obj [("id", idVal)])⟩) r =
      (db, .ok ((quizCandidates db prev cid).get
        ⟨r % (n + 1), by rw [hn]; exact Nat.mod_lt r (Nat.succ_pos n)⟩).format) := by
  have hq : quizCandidates db prev cid =
      (if cid ≠ 0 then
        db.questions.filter (fun q => !prev.contains q.id && q.category = cid)
      else db.questions.filter (fun q => !prev.contains q.id)) := rfl
  simp only [play_quiz, dictGet_single, hid]
  split
  · rename_i h0
    rw [← hq, hn] at h0
    exact absurd h0 (Nat.succ_ne_zero n)
  · rename_i m h1
    have hm : m = n := by
      rw [← hq, hn] at h1
      omega
    subst hm
    rfl

theorem play_quiz_empty_cands (db : DB) (prev : List Int) (idVal : Json)
    (cid : Int) (hid : pyInt idVal = .ok cid)
    (h0 : quizCandidates db prev cid = []) (r : Nat) :
    play_quiz db (some ⟨some prev, some (.obj [("id", idVal)])⟩) r =
      (db, .error 500) := by
  have hq : quizCandidates db prev cid =
      (if cid ≠ 0 then
        db.questions.filter (fun q => !prev.contains q.id && q.category = cid)
      else db.questions.filter (fun q => !prev.contains q.id)) := rfl
  simp only [play_quiz, dictGet_single, hid]
  split
  · rfl
  · rename_i m h1
    rw [← hq, h0] at h1
    exact absurd h1 (by simp)

/-- C3: for every well-formed quiz body (previous ids and a quiz_category
object whose id value coerces to an integer), selection indexes the
candidate set — the questions whose id is not among previous_questions,
restricted to the category exactly when the given id is nonzero — so the
uniform draw of `randrange` returns each candidate with equal probability;
and the returned question always belongs to the candidate set. -/
theorem C3_play_quiz_uniform (db : DB) (prev : List Int) (idVal : Json)
    (cid : Int) (hid : pyInt idVal = .ok cid)
    (hne : quizCandidates db prev cid ≠ []) :
    (∀ r (hr : r < (quizCandidates db prev cid).length),
      play_quiz db (some ⟨some prev, some (.obj [("id", idVal)])⟩) r =
        (db, .ok ((quizCandidates db prev cid).get ⟨r, hr⟩).format)) ∧
    (∀ r, ∃ q, q ∈ quizCandidates db prev cid ∧
      play_quiz db (some ⟨some prev, some (.obj [("id", idVal)])⟩) r =
        (db, .ok q.format)) := by
  obtain ⟨n, hn⟩ : ∃ n, (quizCandidates db prev cid).length = n + 1 := by
    cases h : (quizCandidates db prev cid).length with
    | zero => exact absurd (List.length_eq_zero.1 h) hne
    | succ n => exact ⟨n, rfl⟩
  constructor
  · intro r hr
    rw [play_quiz_ok db prev idVal cid hid n hn r]
    have hmod : r % (n + 1) = r := Nat.mod_eq_of_lt (hn ▸ hr)
    have hfin : (⟨r % (n + 1), by rw [hn]; exact Nat.mod_lt r (Nat.succ_pos n)⟩ :
        Fin (quizCandidates db prev cid).length) = ⟨r, hr⟩ := Fin.ext hmod
    rw [hfin]
  · intro r
    exact ⟨(quizCandidates db prev cid).get
      ⟨r % (n + 1), by rw [hn]; exact Nat.mod_lt r (Nat.succ_pos n)⟩,
      (quizCandidates db prev cid).get_mem _ _,
      play_quiz_ok db prev idVal cid hid n hn r⟩

/-- C3, witness: with no previous questions and category 1, the draw at
index 0 returns the science question, a member of the candidate set. -/
theorem C3_play_quiz_witness :
    pyInt (Json.num 1) = .ok 1 ∧
    quizCandidates exDB [] 1 ≠ [] ∧
    play_quiz exDB (some ⟨some [], some (.obj [("id", Json.num 1)])⟩) 0 =
      (exDB, .ok ((quizCandidates exDB [] 1).get ⟨0, by decide⟩).format) :=
  ⟨by decide, by decide,
    (C3_play_quiz_uniform exDB [] (Json.num 1) 1 (by decide) (by decide)).1 0
      (by decide)⟩

/-- C9: a well-formed quiz request whose candidate set is empty reaches
`random.randrange(0, 0)`, whose error none of the handler's except clauses
catches, so the endpoint answers through the InternalServerError envelope
(500, success false, message "Internal Server Error") rather than a null
question or a 400. -/
theorem C9_play_quiz_empty_500 (db : DB) (prev : List Int) (idVal : Json)
    (cid : Int) (hid : pyInt idVal = .ok cid)
    (h0 : quizCandidates db prev cid = []) (r : Nat) :
    play_quiz db (some ⟨some prev, some (.obj [("id", idVal)])⟩) r =
      (db, .error 500) ∧
    errorResponse 500 = ⟨false, 500, "Internal Server Error"⟩ :=
  ⟨play_quiz_empty_cands db prev idVal cid hid h0 r, rfl⟩

/-- C9, witness: every question of the concrete store already seen, over
all categories. -/
theorem C9_play_quiz_witness :
    pyInt (Json.num 0) = .ok 0 ∧ quizCandidates exDB [1, 2, 3] 0 = [] ∧
    play_quiz exDB (some ⟨some [1, 2, 3], some (.obj [("id", Json.num 0)])⟩) 5 =
      (exDB, .error 500) :=
  ⟨by decide, by decide,
    (C9_play_quiz_empty_500 exDB [1, 2, 3] (Json.num 0) 0 (by decide)
      (by decide) 5).1⟩

end Trivia
